import Mathlib

/-!
Verification of `jules-scratch/verification/verify_theme_package.py`.

The script drives a headless browser: it navigates to a fixed Storybook URL,
scopes a locator to the `#storybook-preview-iframe` frame, waits (with a
30000 ms timeout) for a heading with accessible name "Theme Switcher Demo"
to become visible, and then takes a screenshot to a fixed path.

We embed the script as a function from an environment `Env` (modelling what
the external page/server presents: which accessible elements exist in each
frame and when each becomes visible) to the trace of browser-automation
actions the script performs together with its outcome (success or an
uncaught Playwright error). The filesystem effect of a run is modelled by
folding the trace's screenshot actions over an abstract file store.
-/

namespace ThemedMarkdown

/-- Accessible element inside a frame of the loaded page, as the wait sees
it: its accessible role, its accessible name, and the instant (ms after the
wait starts) at which it becomes visible. -/
structure Elem where
  role : String
  accName : String
  visibleAtMs : Nat
deriving Repr, DecidableEq

/-- External world as observed by the script: for each frame selector, the
accessible elements present in the frame that selector resolves to. -/
structure Env where
  frames : String → List Elem

/-- Browser-automation actions the script can perform, in the order Python
executes the corresponding Playwright calls. -/
inductive Action where
  | launchBrowser (headless : Bool)
  | newPage
  | goto (url : String)
  | frameLocator (selector : String)
  | waitForVisible (frameSelector role accName : String) (timeoutMs : Nat)
  | screenshot (path : String) (fullPage : Bool)
  | closeBrowser
  | stopDriver
deriving Repr, DecidableEq

/-- Errors the embedded script can raise. The only failure the spec and the
claims are about is the visibility-wait timeout, which Playwright surfaces
as a `TimeoutError`. -/
inductive PwError where
  | timeoutError (timeoutMs : Nat)
deriving Repr, DecidableEq

/-- Lower-case a string into its character list, for case-insensitive
comparison. -/
def lowerStr (s : String) : List Char :=
  s.toList.map Char.toLower

/-- Check whether `needle` occurs as a contiguous sublist of `hay`. -/
def containsSub : List Char → List Char → Bool
  | needle, [] => needle.isEmpty
  | needle, c :: rest => needle.isPrefixOf (c :: rest) || containsSub needle rest

/-- Modelled from Playwright's documented locator semantics: `get_by_role`
with a plain-string `name` argument and no `exact=True` matches accessible
names case-insensitively and by substring. -/
def nameMatches (pattern accName : String) : Bool :=
  containsSub (lowerStr pattern) (lowerStr accName)

/-- An element satisfies the role/name query of `get_by_role`. -/
def elemMatches (role pattern : String) (e : Elem) : Bool :=
  e.role == role && nameMatches pattern e.accName

/-- Outcome of `expect(...).to_be_visible(timeout=timeoutMs)`: the wait
succeeds iff some element of the frame matches the role/name query and
becomes visible strictly before the timeout elapses. -/
def waitSucceeds (env : Env) (frameSel role pattern : String) (timeoutMs : Nat) : Bool :=
  (env.frames frameSel).any fun e => elemMatches role pattern e && e.visibleAtMs < timeoutMs

/-- Hardcoded Storybook story URL from `page.goto`. -/
def storyUrl : String :=
  "http://localhost:6006/?path=/story/industrymarkdown-slidepresentationwiththemeswitcher--theme-switcher-demo"

/-- Hardcoded frame selector from `page.frame_locator`. -/
def iframeSelector : String := "#storybook-preview-iframe"

/-- Hardcoded accessible role from `get_by_role`. -/
def headingRole : String := "heading"

/-- Hardcoded accessible name from `get_by_role`. -/
def headingName : String := "Theme Switcher Demo"

/-- Hardcoded visibility timeout (ms) from `to_be_visible(timeout=30000)`. -/
def visibilityTimeoutMs : Nat := 30000

/-- Hardcoded screenshot output path from `page.screenshot`. -/
def screenshotPath : String := "jules-scratch/verification/theme-packaging-verification.png"

/-- Embedding of `test_theme_packaging(page)`: navigate to the story URL,
build the frame locator, wait for the heading to be visible, and on success
take the screenshot. `page.screenshot` is called without `full_page`, and
Playwright's documented default is `full_page=False`, so the screenshot
action records `fullPage = false`. On a failed wait the `TimeoutError`
propagates and the screenshot line is never reached. -/
def test_theme_packaging (env : Env) : List Action × Except PwError Unit :=
  let pre := [Action.goto storyUrl, Action.frameLocator iframeSelector,
    Action.waitForVisible iframeSelector headingRole headingName visibilityTimeoutMs]
  if waitSucceeds env iframeSelector headingRole headingName visibilityTimeoutMs then
    (pre ++ [Action.screenshot screenshotPath false], Except.ok ())
  else
    (pre, Except.error (PwError.timeoutError visibilityTimeoutMs))

/-- Embedding of `main()`: inside `with sync_playwright() as p` the script
launches a headless Chromium, opens a page, runs `test_theme_packaging`, and
closes the browser. On an exception the `browser.close()` call is skipped,
but the context manager's exit still stops the Playwright driver before the
exception propagates. -/
def main (env : Env) : List Action × Except PwError Unit :=
  let setup := [Action.launchBrowser true, Action.newPage]
  let r := test_theme_packaging env
  match r.2 with
  | Except.ok _ => (setup ++ r.1 ++ [Action.closeBrowser, Action.stopDriver], Except.ok ())
  | Except.error e => (setup ++ r.1 ++ [Action.stopDriver], Except.error e)

/-- Process-level entry point `if __name__ == "__main__": main()`, run with
a command line and OS environment. The script body never reads `sys.argv`
or `os.environ`, so the run depends only on the external world `env`. -/
def runScript (_argv : List String) (_osEnv : List (String × String)) (env : Env) :
    List Action × Except PwError Unit :=
  main env

/-- Process exit status: 0 when `main` returns normally, nonzero when an
uncaught exception terminates the interpreter. -/
def scriptExitCode (env : Env) : Nat :=
  match (main env).2 with
  | Except.ok _ => 0
  | Except.error _ => 1

/-- Paths of the screenshot files written along a trace. -/
def screenshotsIn (trace : List Action) : List String :=
  trace.filterMap fun a =>
    match a with
    | Action.screenshot p _ => some p
    | _ => none

/-- Abstract file store: maps a path to the abstract content stored there,
if any. -/
abbrev FS := String → Option Nat

/-- Filesystem effect of one run: each screenshot action in the trace
unconditionally (over)writes its path with the captured image `img`; no
other action touches the file store. -/
def runFs (env : Env) (img : Nat) (fs : FS) : FS :=
  (main env).1.foldl
    (fun f a =>
      match a with
      | Action.screenshot p _ => fun q => if q = p then some img else f q
      | _ => f)
    fs

/-- Environment in which the expected heading is immediately visible in
every frame. -/
def envOk : Env :=
  ⟨fun _ => [⟨"heading", "Theme Switcher Demo", 0⟩]⟩

/-- Environment in which no frame contains any element, so the wait times
out. -/
def envNone : Env :=
  ⟨fun _ => []⟩

/-- Environment whose heading's accessible name strictly contains the
queried name as a substring. -/
def envExt : Env :=
  ⟨fun _ => [⟨"heading", "Theme Switcher Demo Extended", 0⟩]⟩

/-- The full success trace of `main`. -/
def successTrace : List Action :=
  [Action.launchBrowser true, Action.newPage, Action.goto storyUrl,
    Action.frameLocator iframeSelector,
    Action.waitForVisible iframeSelector headingRole headingName visibilityTimeoutMs,
    Action.screenshot screenshotPath false, Action.closeBrowser, Action.stopDriver]

/-- The trace of `main` when the visibility wait times out. -/
def timeoutTrace : List Action :=
  [Action.launchBrowser true, Action.newPage, Action.goto storyUrl,
    Action.frameLocator iframeSelector,
    Action.waitForVisible iframeSelector headingRole headingName visibilityTimeoutMs,
    Action.stopDriver]

lemma main_of_waitSucceeds (env : Env)
    (h : waitSucceeds env iframeSelector headingRole headingName visibilityTimeoutMs = true) :
    main env = (successTrace, Except.ok ()) := by
  simp [main, test_theme_packaging, h, successTrace]

lemma main_of_waitFails (env : Env)
    (h : waitSucceeds env iframeSelector headingRole headingName visibilityTimeoutMs = false) :
    main env = (timeoutTrace, Except.error (PwError.timeoutError visibilityTimeoutMs)) := by
  simp [main, test_theme_packaging, h, timeoutTrace]

lemma isPrefixOf_refl (l : List Char) : l.isPrefixOf l = true := by
  induction l with
  | nil => rfl
  | cons c t ih => simp [List.isPrefixOf, ih]

lemma containsSub_of_isPrefixOf (n h : List Char) (hp : n.isPrefixOf h = true) :
    containsSub n h = true := by
  cases h with
  | nil =>
    cases n with
    | nil => rfl
    | cons a t => simp [List.isPrefixOf] at hp
  | cons c rest => simp [containsSub, hp]

lemma containsSub_self (l : List Char) : containsSub l l = true :=
  containsSub_of_isPrefixOf l l (isPrefixOf_refl l)

lemma nameMatches_self (s : String) : nameMatches s s = true :=
  containsSub_self (lowerStr s)

lemma waitSucceeds_of_elem (env : Env) (frameSel role pattern : String) (timeoutMs : Nat)
    (e : Elem) (he : e ∈ env.frames frameSel) (hr : e.role = role)
    (hn : nameMatches pattern e.accName = true) (ht : e.visibleAtMs < timeoutMs) :
    waitSucceeds env frameSel role pattern timeoutMs = true := by
  unfold waitSucceeds
  rw [List.any_eq_true]
  exact ⟨e, he, by simp [elemMatches, hr, hn, ht]⟩

/-- Count of visibility-wait actions in a trace. -/
def countWaits (trace : List Action) : Nat :=
  trace.countP fun a =>
    match a with
    | Action.waitForVisible _ _ _ _ => true
    | _ => false

/-- Claim C1: if a heading with accessible name "Theme Switcher Demo"
becomes visible inside the embedded frame before the 30000 ms timeout
elapses, the run writes the screenshot file at the fixed output path and
the process exits with status 0. -/
theorem C1_success_screenshot_and_exit0 (env : Env)
    (h : ∃ e ∈ env.frames iframeSelector, e.role = headingRole ∧
      e.accName = headingName ∧ e.visibleAtMs < visibilityTimeoutMs) :
    screenshotsIn (main env).1 = [screenshotPath] ∧ scriptExitCode env = 0 := by
  obtain ⟨e, he, hr, hn, ht⟩ := h
  have hm : nameMatches headingName e.accName = true := by
    rw [hn]; exact nameMatches_self headingName
  have hw := waitSucceeds_of_elem env iframeSelector headingRole headingName
    visibilityTimeoutMs e he hr hm ht
  constructor
  · rw [main_of_waitSucceeds env hw]; decide
  · simp [scriptExitCode, main_of_waitSucceeds env hw]

/-- Witness for C1: one matching heading visible at t = 0. -/
theorem C1_witness :
    screenshotsIn (main envOk).1 = [screenshotPath] ∧ scriptExitCode envOk = 0 :=
  C1_success_screenshot_and_exit0 envOk
    ⟨⟨"heading", "Theme Switcher Demo", 0⟩, by decide, rfl, rfl, by decide⟩

/-- Claim C2: if no matching element becomes visible within the 30000 ms
timeout, the wait fails with a TimeoutError that propagates uncaught, the
process exits nonzero, and no screenshot is taken. -/
theorem C2_timeout_propagates (env : Env)
    (h : waitSucceeds env iframeSelector headingRole headingName visibilityTimeoutMs = false) :
    (main env).2 = Except.error (PwError.timeoutError visibilityTimeoutMs) ∧
      scriptExitCode env ≠ 0 ∧ screenshotsIn (main env).1 = [] := by
  refine ⟨?_, ?_, ?_⟩
  · rw [main_of_waitFails env h]
  · simp [scriptExitCode, main_of_waitFails env h]
  · rw [main_of_waitFails env h]; decide

/-- Witness for C2: an environment whose frames are all empty. -/
theorem C2_witness :
    (main envNone).2 = Except.error (PwError.timeoutError visibilityTimeoutMs) ∧
      scriptExitCode envNone ≠ 0 ∧ screenshotsIn (main envNone).1 = [] :=
  C2_timeout_propagates envNone (by decide)

/-- Counterexample to C3: on a successful concrete run the script performs
a screenshot action with fullPage = false (Playwright's default when
`full_page` is omitted) and performs no full-page screenshot action. -/
theorem C3_counterexample :
    scriptExitCode envOk = 0 ∧
      Action.screenshot screenshotPath false ∈ (main envOk).1 ∧
      Action.screenshot screenshotPath true ∉ (main envOk).1 := by
  refine ⟨?_, ?_, ?_⟩ <;> decide

/-- Claim C3 (amended): once the target element is found, the script
captures a screenshot of the current viewport only (Playwright's default
`full_page=False`), not the entire scrollable page, to the fixed path. -/
theorem C3_viewport_screenshot (env : Env)
    (h : waitSucceeds env iframeSelector headingRole headingName visibilityTimeoutMs = true) :
    Action.screenshot screenshotPath false ∈ (main env).1 ∧
      Action.screenshot screenshotPath true ∉ (main env).1 := by
  rw [main_of_waitSucceeds env h]
  exact ⟨by decide, by decide⟩

/-- Witness for the amended C3. -/
theorem C3_witness :
    Action.screenshot screenshotPath false ∈ (main envOk).1 ∧
      Action.screenshot screenshotPath true ∉ (main envOk).1 :=
  C3_viewport_screenshot envOk (by decide)

/-- Claim C4: every run has exactly one visibility-wait action, and a
successful run performs exactly the linear sequence launch browser, open
page, navigate, obtain the frame handle, wait once, screenshot, close the
browser (followed by the driver teardown of the `with` block). -/
theorem C4_linear_single_wait (env : Env) :
    countWaits (main env).1 = 1 ∧
      (waitSucceeds env iframeSelector headingRole headingName visibilityTimeoutMs = true →
        (main env).1 = successTrace) := by
  constructor
  · cases hw : waitSucceeds env iframeSelector headingRole headingName visibilityTimeoutMs
    · rw [main_of_waitFails env hw]; decide
    · rw [main_of_waitSucceeds env hw]; decide
  · intro h
    rw [main_of_waitSucceeds env h]

/-- Witness for C4: the success path instantiated at a concrete
environment. -/
theorem C4_witness :
    countWaits (main envOk).1 = 1 ∧ (main envOk).1 = successTrace :=
  ⟨(C4_linear_single_wait envOk).1, (C4_linear_single_wait envOk).2 (by decide)⟩

/-- Claim C5: the browser is closed at the end of the success path, and
when the visibility wait raises, browser.close() is never executed. -/
theorem C5_close_only_on_success (env : Env) :
    (waitSucceeds env iframeSelector headingRole headingName visibilityTimeoutMs = true →
      Action.closeBrowser ∈ (main env).1) ∧
    (waitSucceeds env iframeSelector headingRole headingName visibilityTimeoutMs = false →
      Action.closeBrowser ∉ (main env).1) := by
  constructor
  · intro h; rw [main_of_waitSucceeds env h]; decide
  · intro h; rw [main_of_waitFails env h]; decide

/-- Witness for C5: both paths at concrete environments. -/
theorem C5_witness :
    Action.closeBrowser ∈ (main envOk).1 ∧ Action.closeBrowser ∉ (main envNone).1 :=
  ⟨(C5_close_only_on_success envOk).1 (by decide),
    (C5_close_only_on_success envNone).2 (by decide)⟩

/-- Claim C6: every run writes at most one file, only ever at the fixed
screenshot path, by unconditional overwrite; every other path of the file
store is left unchanged. -/
theorem C6_filesystem_frame (env : Env) (img : Nat) (fs : FS) :
    screenshotsIn (main env).1 ⊆ [screenshotPath] ∧
    (screenshotsIn (main env).1).length ≤ 1 ∧
    (∀ q, q ≠ screenshotPath → runFs env img fs q = fs q) ∧
    (waitSucceeds env iframeSelector headingRole headingName visibilityTimeoutMs = true →
      runFs env img fs screenshotPath = some img) := by
  cases hw : waitSucceeds env iframeSelector headingRole headingName visibilityTimeoutMs
  · refine ⟨?_, ?_, ?_, ?_⟩
    · rw [main_of_waitFails env hw]; decide
    · rw [main_of_waitFails env hw]; decide
    · intro q hq; simp [runFs, main_of_waitFails env hw, timeoutTrace]
    · intro h; exact Bool.noConfusion h
  · refine ⟨?_, ?_, ?_, ?_⟩
    · rw [main_of_waitSucceeds env hw]; decide
    · rw [main_of_waitSucceeds env hw]; decide
    · intro q hq; simp [runFs, main_of_waitSucceeds env hw, successTrace, hq]
    · intro _; simp [runFs, main_of_waitSucceeds env hw, successTrace]

/-- Witness for C6: a concrete run touches the fixed path and nothing
else. -/
theorem C6_witness :
    screenshotsIn (main envOk).1 ⊆ [screenshotPath] ∧
    (screenshotsIn (main envOk).1).length ≤ 1 ∧
    runFs envOk 7 (fun _ => none) "other.txt" = none ∧
    runFs envOk 7 (fun _ => none) screenshotPath = some 7 := by
  obtain ⟨h1, h2, h3, h4⟩ := C6_filesystem_frame envOk 7 (fun _ => none)
  exact ⟨h1, h2, h3 "other.txt" (by decide), h4 (by decide)⟩

/-- Claim C7: the run is independent of command-line arguments and OS
environment variables: two invocations differing only in those perform the
same actions with the same outcome. -/
theorem C7_ignores_cli_and_os_env (a1 a2 : List String)
    (e1 e2 : List (String × String)) (env : Env) :
    runScript a1 e1 env = runScript a2 e2 env := rfl

/-- Claim C8: a second successful run on the same environment overwrites
the screenshot file in place — the resulting file store equals that of a
single run, the fixed path holds the second image, and the second run still
exits 0 (no failure on existing output). -/
theorem C8_second_run_overwrites (env : Env) (img1 img2 : Nat) (fs : FS)
    (h : waitSucceeds env iframeSelector headingRole headingName visibilityTimeoutMs = true) :
    runFs env img2 (runFs env img1 fs) = runFs env img2 fs ∧
    runFs env img2 (runFs env img1 fs) screenshotPath = some img2 ∧
    scriptExitCode env = 0 := by
  have hr : ∀ (i : Nat) (g : FS),
      runFs env i g = fun q => if q = screenshotPath then some i else g q := by
    intro i g
    simp [runFs, main_of_waitSucceeds env h, successTrace]
  refine ⟨?_, ?_, ?_⟩
  · funext q
    rw [hr, hr, hr]
    by_cases hq : q = screenshotPath <;> simp [hq]
  · rw [hr]; simp
  · simp [scriptExitCode, main_of_waitSucceeds env h]

/-- Witness for C8: two successive runs at a concrete environment. -/
theorem C8_witness :
    runFs envOk 2 (runFs envOk 1 (fun _ => none)) = runFs envOk 2 (fun _ => none) ∧
    runFs envOk 2 (runFs envOk 1 (fun _ => none)) screenshotPath = some 2 ∧
    scriptExitCode envOk = 0 :=
  C8_second_run_overwrites envOk 1 2 (fun _ => none) (by decide)

/-- Claim C9: the lookup is scoped to the frame selected by
"#storybook-preview-iframe" and uses default case-insensitive substring
name matching, so any heading in that frame whose accessible name contains
"Theme Switcher Demo" (up to case) and that becomes visible in time
satisfies the wait. -/
theorem C9_substring_match (env : Env) (e : Elem)
    (he : e ∈ env.frames iframeSelector) (hr : e.role = headingRole)
    (hn : containsSub (lowerStr headingName) (lowerStr e.accName) = true)
    (ht : e.visibleAtMs < visibilityTimeoutMs) :
    waitSucceeds env iframeSelector headingRole headingName visibilityTimeoutMs = true :=
  waitSucceeds_of_elem env iframeSelector headingRole headingName visibilityTimeoutMs
    e he hr hn ht

/-- Witness for C9: a heading named "Theme Switcher Demo Extended"
satisfies the wait. -/
theorem C9_witness :
    waitSucceeds envExt iframeSelector headingRole headingName visibilityTimeoutMs = true :=
  C9_substring_match envExt ⟨"heading", "Theme Switcher Demo Extended", 0⟩
    (by decide) rfl (by decide) (by decide)

/-- Claim C10: the `with sync_playwright()` exit runs on both paths, so the
driver-stop action ends every trace, even though on the failure path
browser.close() is skipped. -/
theorem C10_driver_stop_both_paths (env : Env) :
    (main env).1.getLast? = some Action.stopDriver ∧
    (waitSucceeds env iframeSelector headingRole headingName visibilityTimeoutMs = false →
      Action.closeBrowser ∉ (main env).1) := by
  constructor
  · cases hw : waitSucceeds env iframeSelector headingRole headingName visibilityTimeoutMs
    · rw [main_of_waitFails env hw]; decide
    · rw [main_of_waitSucceeds env hw]; decide
  · intro h; rw [main_of_waitFails env h]; decide

/-- Witness for C10: the failure path at a concrete environment. -/
theorem C10_witness :
    (main envNone).1.getLast? = some Action.stopDriver ∧
      Action.closeBrowser ∉ (main envNone).1 :=
  ⟨(C10_driver_stop_both_paths envNone).1,
    (C10_driver_stop_both_paths envNone).2 (by decide)⟩

end ThemedMarkdown
